import Mathlib

/-!
# SecBoot — shallow embedding and verification of the spec's claims

This file embeds, in Lean 4, the parts of the SecBoot secure-bootloader
sources (`src/Secure/Core`) that the frozen claims are about, and settles
each claim against that embedding.

Modelling conventions:
* Machine integers become `Nat`; `uint8_t`/`uint32_t` ranges are irrelevant
  to the claims except where noted, in which case `% 256` / `% 2^32` appears
  explicitly.
* The cryptographic collaborators (CRC32, SHA-256, ECDSA, AES) are, per the
  spec's scope section, correctness-proven primitives exposed as pure
  functions; they are taken as function parameters of the embedded code.
* Flash regions are modelled only as far as the code under scrutiny reads or
  writes them (the diagnostics log as a vector of slot states, image payload
  bytes as a byte-addressed function).
-/

namespace SecBoot

/-! ## Status enumerations (from the SecBoot headers) -/

/-- `SECBOOT_Diag_TypeDef` from `secboot_diag.h`. -/
inductive DiagStatus where
  | ok
  | error
  | invalidParam
  | flashFail
  | tampered
  deriving DecidableEq, Repr

/-- `SECBOOT_BOOTMANAGER_StatusTypeDef` from `secboot_bootmanager.h`. -/
inductive BMStatus where
  | ok
  | error
  | invalidSignature
  | invalidHash
  | invalidHeader
  | flashError
  | invalidCRC
  | decryptionError
  | versionRollback
  | secureViolation
  | hwSecureFault
  | jumpFailed
  deriving DecidableEq, Repr

/-- `SECBOOT_Diag_ResponseLevel` from `secboot_diag.h`. -/
inductive ResponseLevel where
  | nothing
  | warn
  | recover
  | lockdown
  deriving DecidableEq, Repr

/-- `SECBOOT_CRC_StatusTypeDef` from `secboot_crc.h`. -/
inductive CrcStatus where
  | ok
  | error
  | invalidParam
  | initFailed
  | mismatch
  deriving DecidableEq, Repr

/-- Numeric value of a `SECBOOT_CRC_StatusTypeDef`, as cast to `uint8_t`
when `SECBOOT_Diag_HandleCrcFail` logs it. -/
def CrcStatus.code : CrcStatus → Nat
  | .ok => 0
  | .error => 1
  | .invalidParam => 2
  | .initFailed => 3
  | .mismatch => 4

/-- `SECBOOT_AES_StatusTypeDef` from `secboot_aes.h`. -/
inductive AesStatus where
  | ok
  | error
  | invalidParam
  | paddingError
  deriving DecidableEq, Repr

/-! ## Diagnostics log data model (`secboot_diag.h` / `secboot_diag.c`)

`SECBOOT_Diag_LogEntry` is `{timestamp, event, error_code, context_data, crc}`.
The log is a circular buffer of `SECBOOT_DIAG_MAX_LOGS = 16` slots of
`SECBOOT_DIAG_LOG_SIZE = 64` bytes each, in flash whose erased words read
`0xFFFFFFFF`.

The CRC collaborator is abstracted as a function `crcE` of the four fields
that precede the `crc` field — the serialization of those fields into the
first `sizeof(entry) - sizeof(entry.crc)` bytes is fixed, so composing it
with the byte-level CRC32 yields such a function. -/

/-- `SECBOOT_Diag_LogEntry` (the `event` enum is held as its numeric value). -/
structure LogEntry where
  timestamp : Nat
  event : Nat
  error_code : Nat
  context_data : Nat
  crc : Nat
  deriving DecidableEq, Repr

/-- What one 64-byte log slot in flash reads as, as far as
`SECBOOT_Diag_LogEvent` inspects it: the code reads the slot's first word
(erased-pattern gate, source line 54) and, after programming, the serialized
entry back (source line 75).  A serialized entry's first word is its
`timestamp` field (offset 0 of the packed prefix). -/
inductive SlotState where
  | erased                    -- every word of the slot reads 0xFFFFFFFF
  | semiErased                -- first word reads 0xFFFFFFFF, a later word does not
  | dirty                     -- first word does not read 0xFFFFFFFF (and no entry)
  | programmed (e : LogEntry) -- slot holds the serialization of entry `e`
  deriving DecidableEq, Repr

/-- The first word of the slot region equals the erased pattern `0xFFFFFFFF`
(the exact test at `secboot_diag.c:54`). -/
def SlotState.firstWordErased : SlotState → Bool
  | .erased => true
  | .semiErased => true
  | .dirty => false
  | .programmed e => e.timestamp == 0xFFFFFFFF

/-- The whole slot region reads as erased (the spec's "fully-erased" reading). -/
def SlotState.fullyErased : SlotState → Bool
  | .erased => true
  | _ => false

/-- The diagnostics state: the 16 log slots and the static `log_index`. -/
structure DiagState where
  slots : List SlotState
  logIndex : Nat
  deriving DecidableEq, Repr

/-- `SECBOOT_Diag_LogEvent` (`secboot_diag.c:22-89`).

* `crcE` — the CRC32 collaborator over the serialized fields preceding `crc`;
* `tick` — the value `HAL_GetTick()` returns at the call;
* `event`, `code`, `data` — the call arguments;
* `st` — the log region and static index.

Faithful points: the entry is built with `crc = 0` ("Temporary zero", line
34); the computed CRC is written into the local `temp_crc` (line 42) and is
never copied back into `entry.crc`; the erased-pattern gate reads only the
slot's first word (line 54); the entry is then programmed and the index
advanced modulo 16 (line 71); the write-back verification recomputes the CRC
of the entry read back and compares it with the stored `crc` field (lines
74-85).  `HAL_FLASH_Program` and `SECBOOT_CRC_Calculate` failures (hardware
faults) are outside the claims and are modelled as succeeding. -/
def SECBOOT_Diag_LogEvent (crcE : Nat → Nat → Nat → Nat → Nat)
    (tick event code data : Nat) (st : DiagState) : DiagStatus × DiagState :=
  -- 1. Validate parameters: `event > SECBOOT_DIAG_ROLLBACK_ATTEMPT (= 0x40)`
  if 0x40 < event then (.invalidParam, st)
  else
    -- 2. Prepare log entry, `entry.crc = 0`
    let entry : LogEntry := ⟨tick, event, code, data, 0⟩
    -- 3. Compute CRC over the fields preceding `crc`; the result lands in the
    -- local `temp_crc` and is never stored into `entry.crc` (source line 42)
    let temp_crc := crcE entry.timestamp entry.event entry.error_code entry.context_data
    -- 4.1/4.2 next slot; reject unless its FIRST word reads erased
    let slot := st.slots.getD st.logIndex .erased
    if slot.firstWordErased = false then (.tampered, st)
    else
      -- 4.3 program the entry; 5. advance the index modulo SECBOOT_DIAG_MAX_LOGS
      let st1 : DiagState :=
        ⟨st.slots.set st.logIndex (.programmed entry), (st.logIndex + 1) % 16⟩
      -- 6. read back and verify: recompute the CRC and compare with the
      -- stored `crc` field of the entry read back
      let written := entry
      let verify_crc :=
        crcE written.timestamp written.event written.error_code written.context_data
      if written.crc ≠ verify_crc then (.tampered, st1)
      else
        -- `temp_crc` is dead here, exactly as in the source
        let _ := temp_crc
        (.ok, st1)

/-- A log region in the reset state: all 16 slots erased, index 0. -/
def allErasedState : DiagState := ⟨List.replicate 16 .erased, 0⟩

/-- A concrete instantiation of the CRC collaborator used to evaluate the
code at specific inputs (any function serves: the collaborator is abstract). -/
def crcDemo : Nat → Nat → Nat → Nat → Nat := fun a b c d => a + b + c + d + 1

/-- A log state whose slot 0 is NOT fully erased, although its first word
still reads as the erased pattern. -/
def semiErasedState : DiagState := ⟨SlotState.semiErased :: List.replicate 15 .erased, 0⟩

/-- A log state whose slot 0 has a non-erased first word. -/
def dirtyState : DiagState := ⟨SlotState.dirty :: List.replicate 15 .erased, 0⟩

/-! ## Boot manager data model (`secboot_bootmanager.h` / `secboot_bootmanager.c`) -/

/-- `FW_MAGIC_NUMBER` (`secboot_bootmanager.h:48`). -/
def FW_MAGIC_NUMBER : Nat := 0xDEADBEEF

/-- `FirmwareHeader_TypeDef` (`secboot_bootmanager.h:106-114`): packed
`magic · imageSize · version[4] · entryPoint · hash[32] · signature[64] ·
headerCRC`. -/
structure FirmwareHeader where
  magicNumber : Nat
  imageSize : Nat
  version : List Nat
  entryPoint : Nat
  firmwareHash : List Nat
  signature : List Nat
  headerCRC : Nat
  deriving DecidableEq, Repr

/-- The bytes an image's flash holds, read at `n` consecutive addresses
starting from `addr` (how `SECBOOT_SHA256_Compute` consumes the payload). -/
def readBytes (flash : Nat → Nat) (addr n : Nat) : List Nat :=
  (List.range n).map fun i => flash (addr + i)

/-- Everything observable about one call of
`SECBOOT_BootManager_VerifyAppSignature`: the returned status; how many
times the SHA-256 collaborator and the ECDSA collaborator were invoked
(recording the short-circuit order); what the stored header in the slot and
the stored trusted public key read as after the call returns. -/
structure VerifyResult where
  status : BMStatus
  hashCalls : Nat
  sigCalls : Nat
  headerAfter : FirmwareHeader
  pubkeyAfter : List Nat
  deriving DecidableEq, Repr

/-- `SECBOOT_BootManager_VerifyAppSignature` (`secboot_bootmanager.c:222-274`).

* `sha256` — the hash collaborator, bytes to 32-byte digest;
* `ecdsaVerify digest sig pubkey` — true iff the ECDSA collaborator returns
  `SECBOOT_ECDSA_VERIFICATION_SUCCESS`;
* `flash` — byte-addressed image memory, hashed from `hdr.entryPoint` for
  `hdr.imageSize` bytes (source line 243);
* `pubkey` — the 64 bytes stored at `ECC_PUBKEY_OFFSET`;
* `hdr` — the `FirmwareHeader_TypeDef` stored at `image_address`.

Faithful points: the magic gate returns `INVALID_HEADER` before any hash
(lines 236-239); if `SECBOOT_SHA256_Compute` does not return
`SECBOOT_SHA256_OK` the function returns `SECBOOT_BOOTMANAGER_ERROR`
(lines 243-246), and that compute rejects a NULL input pointer
(`pAppBinary = entryPoint = 0`) and a zero `inputLength`
(`imageSize = 0`) deterministically (`secboot_sha256.c:44-50`); a digest
mismatch returns `INVALID_HASH` before any signature check (lines
249-252); a failed signature check returns `INVALID_SIGNATURE` (line
264); the success path `memset`s to zero the computed digest — a local —
but also the objects `public_key` and `signature` point to, which are the
STORED trusted key at `ECC_PUBKEY_OFFSET` and the STORED header's
`signature` field (lines 256-258, 269-271), not copies.  `headerCRC` is
never read.  The HAL hardware paths inside the SHA-256 collaborator are,
per the spec's scope, correctness-proven and modelled as succeeding;
`hashCalls` counts the invocations of `SECBOOT_SHA256_Compute` (it reads
the payload and produces the digest only when its parameter validation
passed). -/
def SECBOOT_BootManager_VerifyAppSignature
    (sha256 : List Nat → List Nat)
    (ecdsaVerify : List Nat → List Nat → List Nat → Bool)
    (flash : Nat → Nat) (pubkey : List Nat) (hdr : FirmwareHeader) : VerifyResult :=
  -- 1. First check: the firmware header magic number
  if hdr.magicNumber ≠ FW_MAGIC_NUMBER then
    ⟨.invalidHeader, 0, 0, hdr, pubkey⟩
  -- 2. Second check: SECBOOT_SHA256_Compute rejects a NULL input pointer or a
  -- zero length before hashing, and the caller then returns ERROR
  else if hdr.entryPoint = 0 ∨ hdr.imageSize = 0 then
    ⟨.error, 1, 0, hdr, pubkey⟩
  else
    -- compute the payload digest and compare with the header's stored hash
    let pDigitApp := sha256 (readBytes flash hdr.entryPoint hdr.imageSize)
    if pDigitApp ≠ hdr.firmwareHash then
      ⟨.invalidHash, 1, 0, hdr, pubkey⟩
    -- 3. Third check: ECDSA signature over the digest and the stored key
    else if ecdsaVerify pDigitApp hdr.signature pubkey then
      -- success path: `memset(public_key, 0, …)` and `memset(signature, 0, …)`
      -- zeroize the stored key and the stored header's signature field
      ⟨.ok, 1, 1, { hdr with signature := List.replicate 64 0 }, List.replicate 64 0⟩
    else
      ⟨.invalidSignature, 1, 1, hdr, pubkey⟩

/-- The status a verification call yields according to the spec's words
(§4.2 `verify_app_signature`): three ordered checks, short-circuiting on the
first failure, a distinct status per failing stage, `OK` when all pass.
Used to compare the source-derived `SECBOOT_BootManager_VerifyAppSignature`
against the claim. -/
def spec_verifyStatus (sha256 : List Nat → List Nat)
    (ecdsaVerify : List Nat → List Nat → List Nat → Bool)
    (flash : Nat → Nat) (pubkey : List Nat) (hdr : FirmwareHeader) : BMStatus :=
  if hdr.magicNumber ≠ FW_MAGIC_NUMBER then .invalidHeader
  else if sha256 (readBytes flash hdr.entryPoint hdr.imageSize) ≠ hdr.firmwareHash then
    .invalidHash
  else if ¬ ecdsaVerify (sha256 (readBytes flash hdr.entryPoint hdr.imageSize))
      hdr.signature pubkey then .invalidSignature
  else .ok

/-- Concrete collaborators and image used to evaluate the verifier at
specific inputs: a hash collaborator that returns 32 zero bytes, an ECDSA
collaborator that accepts, an image of zero bytes. -/
def shaDemo : List Nat → List Nat := fun _ => List.replicate 32 0

/-- Concrete ECDSA collaborator that accepts every signature. -/
def ecdsaDemoTrue : List Nat → List Nat → List Nat → Bool := fun _ _ _ => true

/-- Concrete image flash holding zero bytes everywhere. -/
def flashDemo : Nat → Nat := fun _ => 0

/-- Concrete stored public key (64 bytes of value 7). -/
def pubkeyDemo : List Nat := List.replicate 64 7

/-- A concrete header that passes all three checks under the demo
collaborators: right magic, digest matching `shaDemo`, any signature. -/
def headerDemo : FirmwareHeader :=
  ⟨FW_MAGIC_NUMBER, 4, [1, 0, 0, 0], 0x08040100, List.replicate 32 0,
    List.replicate 64 1, 0⟩

/-! ## Response escalation (`secboot_diag.c:103-196`)

The failure-handling episode starting at `SECBOOT_Diag_HandleCrcFail` is
modelled as the trace of externally visible actions it performs, in order:
`SECBOOT_Diag_LogEvent` invocations (with the event type, error code and
context argument), the backup-slot signature verification, the jump to the
backup slot, entering `system_lockdown` (a `while(1)` that never returns —
nothing can follow it in a trace), and the control transfer of a successful
jump (which also never returns). -/

/-- One observable action of a failure-handling episode. -/
inductive Ev where
  | logCall (event code ctx : Nat)  -- a SECBOOT_Diag_LogEvent invocation
  | backupVerify                    -- VerifyAppSignature(SECBOOT_BACKUP_IMAGE_ADDR)
  | backupJump                      -- JumpTo(SECBOOT_BACKUP_IMAGE_ADDR)
  | lockdownEntered                 -- system_lockdown(): while(1), never returns
  | transferred                     -- a jump that transferred control, never returns
  deriving DecidableEq, Repr

/-- `SECBOOT_DIAG_CRC_FAIL` event type value. -/
def EV_CRC_FAIL : Nat := 0x10

/-- `SECBOOT_DIAG_ROLLBACK_ATTEMPT` event type value. -/
def EV_ROLLBACK_ATTEMPT : Nat := 0x40

/-- `try_recovery_from_backup` (`secboot_diag.c:156-186`).

* `tick` — the `HAL_GetTick()` value logged as context;
* `backupSigOK` — whether `SECBOOT_BootManager_VerifyAppSignature` on the
  backup slot returns `SECBOOT_BOOTMANAGER_OK`;
* `jumpTransfers` — whether `SECBOOT_BootManager_JumpTo` transfers control
  (in which case nothing after it runs; a `JumpTo` that returns reports
  failure).

The failed-verification branch logs `SIG_FAIL_BACKUP_IMAGE (= 0x21)` with
context 0 and executes LOCKDOWN (lines 167-171); the failed-jump path logs
`ROOLBACK_JUMP_FAILED (= 0x45)` and falls into the final
`SECBOOT_Diag_ExecuteResponse(LOCKDOWN)` (lines 178-185). -/
def try_recovery_from_backup (tick : Nat) (backupSigOK jumpTransfers : Bool) :
    List Ev :=
  [Ev.logCall EV_ROLLBACK_ATTEMPT 0x40 tick,   -- ROLLBACK_NORMAL_RECOVERY
   Ev.backupVerify] ++
  (if backupSigOK = false then
    [Ev.logCall EV_ROLLBACK_ATTEMPT 0x21 0,    -- SIG_FAIL_BACKUP_IMAGE
     Ev.lockdownEntered]
  else
    [Ev.backupJump] ++
    (if jumpTransfers then [Ev.transferred]
     else
      [Ev.logCall EV_ROLLBACK_ATTEMPT 0x45 tick, -- ROOLBACK_JUMP_FAILED
       Ev.lockdownEntered]))

/-- `SECBOOT_Diag_ExecuteResponse` (`secboot_diag.c:130-149`): WARN writes a
GPIO pin only, RECOVER runs the recovery attempt, LOCKDOWN enters
`system_lockdown`. -/
def SECBOOT_Diag_ExecuteResponse (tick : Nat) (backupSigOK jumpTransfers : Bool) :
    ResponseLevel → List Ev
  | .warn => []
  | .recover => try_recovery_from_backup tick backupSigOK jumpTransfers
  | .lockdown => [Ev.lockdownEntered]
  | .nothing => []

/-- `SECBOOT_Diag_HandleCrcFail` (`secboot_diag.c:103-125`): always logs the
failure first (event `SECBOOT_DIAG_CRC_FAIL`, code `(uint8_t)status`,
context `HAL_GetTick()`), maps MISMATCH to RECOVER, INVALID_PARAM to WARN,
anything else to LOCKDOWN, then executes the mapped response.  Returns the
mapped response paired with the episode's action trace. -/
def SECBOOT_Diag_HandleCrcFail (tick : Nat) (status : CrcStatus)
    (backupSigOK jumpTransfers : Bool) : ResponseLevel × List Ev :=
  let response : ResponseLevel :=
    if status = .mismatch then .recover
    else if status = .invalidParam then .warn
    else .lockdown
  (response,
   Ev.logCall EV_CRC_FAIL status.code tick ::
     SECBOOT_Diag_ExecuteResponse tick backupSigOK jumpTransfers response)

/-- Number of backup-slot verification attempts in a trace. -/
def countBackupVerify : List Ev → Nat
  | [] => 0
  | Ev.backupVerify :: t => countBackupVerify t + 1
  | _ :: t => countBackupVerify t

/-- Number of log invocations recording the backup-signature-failure code
(`SECBOOT_DIAG_ROLLBACK_ATTEMPT` with `SIG_FAIL_BACKUP_IMAGE = 0x21`). -/
def countBackupSigFailLog : List Ev → Nat
  | [] => 0
  | Ev.logCall e c _ :: t =>
      (if e = EV_ROLLBACK_ATTEMPT ∧ c = 0x21 then 1 else 0) + countBackupSigFailLog t
  | _ :: t => countBackupSigFailLog t

/-! ## Rollback protection

`SECBOOT_BootManager_CheckRollbackProtection` is declared at
`secboot_bootmanager.h:199-207` but its implementation is not among the
files under `src/`; it is modelled from the spec below. -/

/-- Modelled from the spec: the implementation of
`SECBOOT_BootManager_CheckRollbackProtection` is missing from `src/` (only
its declaration in `secboot_bootmanager.h` is present).  Spec §4.2:
"`check_rollback(current_version, candidate_version)`: lexicographic 4-tuple
compare; candidate ≤ current ⇒ `VERSION_ROLLBACK`; else OK."  The version is
the header's 4-byte `major.minor.patch.build` tuple, compared byte by byte
from the most significant. -/
def SECBOOT_BootManager_CheckRollbackProtection
    (cur cand : Nat × Nat × Nat × Nat) : BMStatus :=
  if cand.1 ≠ cur.1 then (if cand.1 < cur.1 then .versionRollback else .ok)
  else if cand.2.1 ≠ cur.2.1 then (if cand.2.1 < cur.2.1 then .versionRollback else .ok)
  else if cand.2.2.1 ≠ cur.2.2.1 then
    (if cand.2.2.1 < cur.2.2.1 then .versionRollback else .ok)
  else if cand.2.2.2 ≠ cur.2.2.2 then
    (if cand.2.2.2 < cur.2.2.2 then .versionRollback else .ok)
  else .versionRollback  -- equal tuples: candidate ≤ current, rejected

/-- Lexicographic order on 4-byte version tuples: `cand ≤ cur` in the
dictionary order on `(major, minor, patch, build)`. -/
def versionLE (cand cur : Nat × Nat × Nat × Nat) : Prop :=
  cand.1 < cur.1 ∨ (cand.1 = cur.1 ∧
    (cand.2.1 < cur.2.1 ∨ (cand.2.1 = cur.2.1 ∧
      (cand.2.2.1 < cur.2.2.1 ∨ (cand.2.2.1 = cur.2.2.1 ∧
        cand.2.2.2 ≤ cur.2.2.2)))))

instance (cand cur : Nat × Nat × Nat × Nat) : Decidable (versionLE cand cur) := by
  unfold versionLE; infer_instance

/-! ## Key unwrap (`get_AES_key`, `secboot_bootmanager.c:29-111`) -/

/-- `bytes_to_uint32_be` (`secboot_bootmanager.c:19-26`): pack each group of
4 input bytes into one word, first byte most significant.  Inputs are
`uint8_t`, hence the explicit `% 256`. -/
def bytes_to_uint32_be (input : List Nat) : List Nat :=
  (List.range (input.length / 4)).map fun i =>
    (input.getD (4 * i) 0 % 256) * 2 ^ 24 +
    (input.getD (4 * i + 1) 0 % 256) * 2 ^ 16 +
    (input.getD (4 * i + 2) 0 % 256) * 2 ^ 8 +
    input.getD (4 * i + 3) 0 % 256

/-- `AES_Secrets_TypeDef` (`secboot_bootmanager.h:116-119`). -/
structure AES_Secrets where
  AES_key : List Nat
  AES_iv : List Nat
  deriving DecidableEq, Repr

/-- Everything observable about one call of `get_AES_key`: the returned
status, the final contents of the three sensitive stack buffers (`temp_key`,
4 words; `temp_iv`, 4 words; `decrypted_key`, 32 bytes) at the moment the
function returns, and the output secret. -/
structure GetKeyResult where
  status : AesStatus
  temp_key : List Nat
  temp_iv : List Nat
  decrypted_key : List Nat
  secret : AES_Secrets
  deriving DecidableEq, Repr

/-- `get_AES_key` (`secboot_bootmanager.c:29-111`).

* `uid0 uid1 uid2` — the `HAL_GetUIDw{0,1,2}()` hardware-identity words;
* `ivFlash` — the 4 words stored at `AES_IV_OFFSET`;
* `initOK` — whether `SECBOOT_AES_Init` succeeds;
* `decryptOut` — `some bytes` when `SECBOOT_AES_Decrypt` of the wrapped key
  at `AES_KEY_OFFSET` succeeds with those plaintext bytes (the AES
  collaborator in the spec's scope is a pure function), `none` on failure;
* `deinitOK` — whether `SECBOOT_AES_DeInit` succeeds.

* `adjStack` — the words of stack memory laid out directly after the 4-word
  `Aes_key` array.  They matter because the source is out of bounds there:
  `Aes_key` is declared with `KEY_WORD_SIZE = 4` words (line 34,
  `secboot_aes.h:23`), yet the validation loop at line 73 iterates
  `AES_KEY_SIZE/sizeof(uint32_t) = 8` words, reading `Aes_key[4..7]` past
  the array on every call, and the repack at line 69 writes
  `decrypted_key_len/4` words, past the array whenever the plaintext
  exceeds 16 bytes.  ISO C makes these accesses undefined; the embedding
  models the common flat-stack behaviour — offsets 0..3 hit the array
  (zero-initialized where the repack wrote fewer than 4 words), offsets
  4..7 hit the repacked words when the repack reached them and the
  unspecified adjacent words `adjStack` otherwise — making explicit that
  the accept/reject decision depends on memory outside `Aes_key`.

Faithful points: the ephemeral key is `[uid0, uid1, uid2, FW_MAGIC_NUMBER]`
(lines 43-46); the decrypted bytes land in the 32-byte `decrypted_key`
buffer and are repacked big-endian starting at `Aes_key` (line 69; at this
call site the plaintext of the 8-word ciphertext is at most 31 bytes, so
the buffer read is in bounds and at most 7 words are repacked); the loop
accepts iff some of the 8 words it reads is neither `0x00000000` nor
`0xFFFFFFFF` (lines 72-78); the function has a single return, preceded
unconditionally by zeroing loops over every element of `temp_key`,
`temp_iv` and `decrypted_key` (lines 90-100), the copy-out of
`Aes_iv`/`Aes_key` into the output secret (lines 102-103, both copies 16
bytes long), and the `SECBOOT_AES_DeInit` whose failure forces the error
status (lines 105-107). -/
def get_AES_key (uid0 uid1 uid2 : Nat) (ivFlash : List Nat)
    (initOK : Bool) (decryptOut : Option (List Nat)) (deinitOK : Bool)
    (adjStack : List Nat) : GetKeyResult :=
  -- locals: temp_key from the device identity; temp_iv and Aes_iv receive the
  -- 4 words (AES_IV_SIZE = 16 bytes) memcpy'd from AES_IV_OFFSET
  let temp_key := [uid0, uid1, uid2, FW_MAGIC_NUMBER]
  let temp_iv := [ivFlash.getD 0 0, ivFlash.getD 1 0, ivFlash.getD 2 0, ivFlash.getD 3 0]
  let aes_iv := [ivFlash.getD 0 0, ivFlash.getD 1 0, ivFlash.getD 2 0, ivFlash.getD 3 0]
  let step :=
    if initOK then
      match decryptOut with
      | some bs =>
        -- the decrypt writes `decrypted_key_len = bs.length` bytes into the
        -- zero-initialized 32-byte buffer, then `bytes_to_uint32_be` packs
        let bs32 := bs.take 32
        let buf := bs32 ++ List.replicate (32 - bs32.length) 0
        let keyWords := bytes_to_uint32_be bs32
        -- the word the validation loop reads at offset i from Aes_key: a
        -- repacked word where the repack reached, a zero-initialized array
        -- word below offset 4, the adjacent stack word beyond the array
        let word_at : Nat → Nat := fun i =>
          if i < keyWords.length then keyWords.getD i 0
          else if i < 4 then 0
          else adjStack.getD (i - 4) 0
        -- validation loop: 8 words although the array holds 4
        let valid := (List.range 8).any fun i =>
          (word_at i != 0x00000000) && (word_at i != 0xFFFFFFFF)
        -- the copy-out reads only the 16 bytes of the Aes_key array itself
        let aes_key := (List.range 4).map word_at
        (if valid then AesStatus.ok else AesStatus.error, aes_key, buf)
      | none => (AesStatus.error, List.replicate 4 0, List.replicate 32 0)
    else (AesStatus.error, List.replicate 4 0, List.replicate 32 0)
  let aes_key := step.2.1
  -- secure cleanup, on the single return path: every word of temp_key and
  -- temp_iv and every byte of decrypted_key is overwritten with zero
  let temp_key_final := temp_key.map fun _ => 0
  let temp_iv_final := temp_iv.map fun _ => 0
  let decrypted_key_final := step.2.2.map fun _ => 0
  let secret : AES_Secrets := ⟨aes_key, aes_iv⟩
  let status_final := if deinitOK then step.1 else AesStatus.error
  ⟨status_final, temp_key_final, temp_iv_final, decrypted_key_final, secret⟩

/-! ## PKCS7 padding (`secboot_aes.c:35-71`) -/

/-- `AES_BLOCK_SIZE` (`secboot_aes.h`). -/
def AES_BLOCK_SIZE : Nat := 16

/-- `PKCS7_Status` (`secboot_aes.c:13-18`). -/
inductive PKCS7_Status where
  | pad_ok
  | pad_nok
  | unpad_ok
  | unpad_nok
  deriving DecidableEq, Repr

/-- `PKCS7_Pad` (`secboot_aes.c:35-45`): append `pad_len = 16 - len % 16`
bytes, each of value `pad_len`, to the input; report the padded length.
Returns `(status, output buffer, *out_len)`. -/
def PKCS7_Pad (input : List Nat) : PKCS7_Status × List Nat × Nat :=
  let pad_len := AES_BLOCK_SIZE - input.length % AES_BLOCK_SIZE
  (.pad_ok, input ++ List.replicate pad_len pad_len, input.length + pad_len)

/-- `PKCS7_Unpad` (`secboot_aes.c:56-71`): reject an empty or non-block-
aligned input; read the last byte as the pad value; reject a pad value of 0,
above the block size, or above the input length; reject unless the last
`pad` bytes all equal `pad`; otherwise return the input minus its padding.
The source's null-pointer rejections have no counterpart on Lean lists, and
on the reject paths the source leaves the output buffer unwritten — modelled
as `([], 0)`.  Returns `(status, output buffer, *output_len)`. -/
def PKCS7_Unpad (input : List Nat) : PKCS7_Status × List Nat × Nat :=
  if input.length = 0 ∨ input.length % AES_BLOCK_SIZE ≠ 0 then (.unpad_nok, [], 0)
  else
    let pad := input.getD (input.length - 1) 0
    if pad = 0 ∨ AES_BLOCK_SIZE < pad ∨ input.length < pad then (.unpad_nok, [], 0)
    else if (List.range pad).any fun i => input.getD (input.length - 1 - i) 0 != pad then
      (.unpad_nok, [], 0)
    else (.unpad_ok, input.take (input.length - pad), input.length - pad)

/-! ## Shared helper lemmas -/

theorem getD_append_add (l l' : List Nat) (i d : Nat) :
    (l ++ l').getD (l.length + i) d = l'.getD i d := by
  induction l with
  | nil => simp
  | cons a t ih => simpa [Nat.succ_add] using ih

theorem getD_replicate_of_lt (n i a d : Nat) (h : i < n) :
    (List.replicate n a).getD i d = a := by
  induction n generalizing i with
  | zero => omega
  | succ m ih =>
    cases i with
    | zero => simp [List.replicate_succ]
    | succ j => simpa [List.replicate_succ] using ih j (by omega)

theorem map_const_zero_eq_replicate (l : List Nat) :
    l.map (fun _ => 0) = List.replicate l.length 0 := by
  induction l with
  | nil => rfl
  | cons a t ih => simp [ih, List.replicate_succ]

/-! ## Claim theorems -/

/-- C1 (code bug): `SECBOOT_Diag_LogEvent` builds the entry with `crc = 0`,
computes the CRC of the preceding fields only into the local `temp_crc`, and
programs the entry without ever copying the computed CRC into `entry.crc`
(`secboot_diag.c:34-42`).  Evaluating the embedded code on an erased log at
a concrete input whose field CRC is nonzero (here 33): the entry is stored
with `crc = 0` while the recomputed CRC is 33, so the function's own
write-back verification fails and it returns `TAMPERED` — the appended
entry does not carry the CRC of its fields and the N-entry round-trip of the
claim cannot succeed. -/
theorem C1_logEvent_discards_computed_crc :
    (SECBOOT_Diag_LogEvent crcDemo 0 0x10 0x10 0 allErasedState).1 = DiagStatus.tampered ∧
    (SECBOOT_Diag_LogEvent crcDemo 0 0x10 0x10 0 allErasedState).2.slots.getD 0 .erased
      = SlotState.programmed ⟨0, 0x10, 0x10, 0, 0⟩ ∧
    crcDemo 0 0x10 0x10 0 = 33 := by decide

/-- C6 counterexample: slot 0 of `semiErasedState` is not fully erased (its
first word reads as the erased pattern but a later word does not), yet
`SECBOOT_Diag_LogEvent` programs the entry over it and advances the log
index — it does not reject the append as the claim states. -/
theorem C6_counterexample_semi_erased_slot_is_programmed :
    (semiErasedState.slots.getD 0 .erased).fullyErased = false ∧
    (SECBOOT_Diag_LogEvent crcDemo 0 0x10 0x10 0 semiErasedState).2.slots.getD 0 .erased
      = SlotState.programmed ⟨0, 0x10, 0x10, 0, 0⟩ ∧
    (SECBOOT_Diag_LogEvent crcDemo 0 0x10 0x10 0 semiErasedState).2.logIndex = 1 := by
  decide

/-- C6 (amended): the erased-precondition gate of `SECBOOT_Diag_LogEvent`
reads only the FIRST word of the target slot (`secboot_diag.c:54`).  When
that first word does not read as the erased pattern `0xFFFFFFFF` (and the
event type is valid, so the parameter check does not fire first), the call
returns `TAMPERED` and leaves the log state — slot contents and index —
unchanged. -/
theorem C6_first_word_not_erased_rejects (crcE : Nat → Nat → Nat → Nat → Nat)
    (tick event code data : Nat) (st : DiagState)
    (hev : event ≤ 0x40)
    (hw : (st.slots.getD st.logIndex .erased).firstWordErased = false) :
    SECBOOT_Diag_LogEvent crcE tick event code data st = (.tampered, st) := by
  simp only [SECBOOT_Diag_LogEvent]
  rw [if_neg (by omega : ¬ 0x40 < event), if_pos hw]

/-- Witness for C6 (amended) at a concrete input: slot 0 has a non-erased
first word, and the call returns `TAMPERED` with the state unchanged. -/
theorem C6_first_word_not_erased_rejects_witness :
    SECBOOT_Diag_LogEvent crcDemo 0 0x10 0x10 0 dirtyState = (.tampered, dirtyState) :=
  C6_first_word_not_erased_rejects crcDemo 0 0x10 0x10 0 dirtyState (by decide) (by decide)

/-- C4: `SECBOOT_Diag_HandleCrcFail` on `SECBOOT_CRC_MISMATCH` returns
RECOVER, and its episode performs the backup-slot verification exactly once
whatever the backup verification and jump outcomes; when the backup
verification fails, exactly one further log call carries the distinct
backup-signature-failure code (`SECBOOT_DIAG_ROLLBACK_ATTEMPT` /
`SIG_FAIL_BACKUP_IMAGE`) and the episode's last action is entering
`system_lockdown` — no second recovery attempt exists in the trace. -/
theorem C4_mismatch_recovers_once_then_lockdown (tick : Nat) (b j : Bool) :
    (SECBOOT_Diag_HandleCrcFail tick .mismatch b j).1 = ResponseLevel.recover ∧
    countBackupVerify (SECBOOT_Diag_HandleCrcFail tick .mismatch b j).2 = 1 ∧
    (b = false →
      countBackupSigFailLog (SECBOOT_Diag_HandleCrcFail tick .mismatch b j).2 = 1 ∧
      (SECBOOT_Diag_HandleCrcFail tick .mismatch b j).2.getLast?
        = some Ev.lockdownEntered) := by
  cases b <;> cases j <;>
    simp [SECBOOT_Diag_HandleCrcFail, SECBOOT_Diag_ExecuteResponse,
      try_recovery_from_backup, countBackupVerify, countBackupSigFailLog,
      EV_CRC_FAIL, EV_ROLLBACK_ATTEMPT, CrcStatus.code, List.getLast?]

/-- Witness for C4 at a concrete input (backup verification fails). -/
theorem C4_mismatch_recovers_once_then_lockdown_witness :
    (SECBOOT_Diag_HandleCrcFail 7 .mismatch false true).1 = ResponseLevel.recover ∧
    countBackupVerify (SECBOOT_Diag_HandleCrcFail 7 .mismatch false true).2 = 1 ∧
    countBackupSigFailLog (SECBOOT_Diag_HandleCrcFail 7 .mismatch false true).2 = 1 ∧
    (SECBOOT_Diag_HandleCrcFail 7 .mismatch false true).2.getLast?
      = some Ev.lockdownEntered := by
  obtain ⟨h1, h2, h3⟩ := C4_mismatch_recovers_once_then_lockdown 7 false true
  exact ⟨h1, h2, (h3 rfl).1, (h3 rfl).2⟩

/-- C2 counterexample: two images identical except for their `headerCRC`
field (0 in one, 1 in the other) are BOTH accepted by
`SECBOOT_BootManager_VerifyAppSignature`, with the payload hash computed in
both calls.  Since the two `headerCRC` values differ, at least one of them
is not the CRC32 of the preceding header fields — whatever CRC32 is — yet
verification still hashed the payload (using `imageSize` and `entryPoint`)
and returned OK for it: no `headerCRC` check precedes the use of the header
fields. -/
theorem C2_counterexample_headerCRC_not_checked :
    ((SECBOOT_BootManager_VerifyAppSignature shaDemo ecdsaDemoTrue flashDemo pubkeyDemo
        { headerDemo with headerCRC := 0 }).status = BMStatus.ok ∧
      (SECBOOT_BootManager_VerifyAppSignature shaDemo ecdsaDemoTrue flashDemo pubkeyDemo
        { headerDemo with headerCRC := 0 }).hashCalls = 1) ∧
    ((SECBOOT_BootManager_VerifyAppSignature shaDemo ecdsaDemoTrue flashDemo pubkeyDemo
        { headerDemo with headerCRC := 1 }).status = BMStatus.ok ∧
      (SECBOOT_BootManager_VerifyAppSignature shaDemo ecdsaDemoTrue flashDemo pubkeyDemo
        { headerDemo with headerCRC := 1 }).hashCalls = 1) := by decide

/-- C2 (amended): `SECBOOT_BootManager_VerifyAppSignature` never reads
`headerCRC`: its status, its hash and signature collaborator usage, and its
effect on the stored public key are identical under any change of
`headerCRC`, and the payload is hashed exactly when the magic number
matches — `imageSize` and `entryPoint` are used with no CRC gate before
them. -/
theorem C2_verify_ignores_headerCRC (sha : List Nat → List Nat)
    (ec : List Nat → List Nat → List Nat → Bool) (flash : Nat → Nat)
    (pk : List Nat) (hdr : FirmwareHeader) (c : Nat) :
    ((SECBOOT_BootManager_VerifyAppSignature sha ec flash pk
        { hdr with headerCRC := c }).status
      = (SECBOOT_BootManager_VerifyAppSignature sha ec flash pk hdr).status) ∧
    ((SECBOOT_BootManager_VerifyAppSignature sha ec flash pk
        { hdr with headerCRC := c }).hashCalls
      = (SECBOOT_BootManager_VerifyAppSignature sha ec flash pk hdr).hashCalls) ∧
    ((SECBOOT_BootManager_VerifyAppSignature sha ec flash pk
        { hdr with headerCRC := c }).sigCalls
      = (SECBOOT_BootManager_VerifyAppSignature sha ec flash pk hdr).sigCalls) ∧
    ((SECBOOT_BootManager_VerifyAppSignature sha ec flash pk
        { hdr with headerCRC := c }).pubkeyAfter
      = (SECBOOT_BootManager_VerifyAppSignature sha ec flash pk hdr).pubkeyAfter) ∧
    ((SECBOOT_BootManager_VerifyAppSignature sha ec flash pk
        { hdr with headerCRC := c }).hashCalls
      = if hdr.magicNumber = FW_MAGIC_NUMBER then 1 else 0) := by
  by_cases h1 : hdr.magicNumber = FW_MAGIC_NUMBER <;>
    by_cases h4 : hdr.entryPoint = 0 ∨ hdr.imageSize = 0 <;>
      by_cases h2 : sha (readBytes flash hdr.entryPoint hdr.imageSize) = hdr.firmwareHash <;>
        by_cases h3 : ec hdr.firmwareHash hdr.signature pk = true <;>
          simp [SECBOOT_BootManager_VerifyAppSignature, h1, h4, h2, h3]

/-- C3 (code bug): on the success path,
`SECBOOT_BootManager_VerifyAppSignature` `memset`s to zero the objects its
`public_key` and `signature` pointers refer to — but those are the stored
trusted public key at `ECC_PUBKEY_OFFSET` and the stored header's
`signature` field, not local copies (`secboot_bootmanager.c:256-258,
269-271`).  Evaluated at a concrete image that passes all three checks: the
call returns OK, and afterwards the stored header's signature and the
stored public key read as all-zero instead of their original contents. -/
theorem C3_success_path_zeroizes_stored_key_and_signature :
    (SECBOOT_BootManager_VerifyAppSignature shaDemo ecdsaDemoTrue flashDemo pubkeyDemo
        headerDemo).status = BMStatus.ok ∧
    (SECBOOT_BootManager_VerifyAppSignature shaDemo ecdsaDemoTrue flashDemo pubkeyDemo
        headerDemo).headerAfter.signature = List.replicate 64 0 ∧
    headerDemo.signature = List.replicate 64 1 ∧
    (SECBOOT_BootManager_VerifyAppSignature shaDemo ecdsaDemoTrue flashDemo pubkeyDemo
        headerDemo).pubkeyAfter = List.replicate 64 0 ∧
    pubkeyDemo = List.replicate 64 7 := by decide

/-- C5 counterexample: a header with the correct magic number but
`imageSize = 0` makes `SECBOOT_SHA256_Compute` reject its zero input length
(`secboot_sha256.c:48-50`), and `SECBOOT_BootManager_VerifyAppSignature`
returns `SECBOOT_BOOTMANAGER_ERROR` (`secboot_bootmanager.c:243-246`) — a
fourth status outside the claim's three-checks description, under which
this image (its digest equals its stored hash and the ECDSA collaborator
accepts) would have returned OK. -/
theorem C5_counterexample_zero_size_returns_error :
    (SECBOOT_BootManager_VerifyAppSignature shaDemo ecdsaDemoTrue flashDemo pubkeyDemo
        { headerDemo with imageSize := 0 }).status = BMStatus.error ∧
    spec_verifyStatus shaDemo ecdsaDemoTrue flashDemo pubkeyDemo
        { headerDemo with imageSize := 0 } = BMStatus.ok := by decide

/-- C5 (amended): `SECBOOT_BootManager_VerifyAppSignature` performs the
three ordered short-circuiting checks of the claim — INVALID_HEADER on a
magic mismatch without computing any hash, INVALID_HASH on a digest
mismatch without any signature verification, INVALID_SIGNATURE when the
ECDSA collaborator rejects, OK when all pass — except that when the hash
computation itself fails, which happens deterministically when the header's
`entryPoint` is 0 (NULL input) or `imageSize` is 0 (zero length), it
returns ERROR after the magic check, before any hash comparison and
without any signature verification.  The hash computation is invoked
exactly when the magic matched; the signature collaborator runs exactly
when the digest was also produced and matched. -/
theorem C5_three_checks_with_hash_fail_path (sha : List Nat → List Nat)
    (ec : List Nat → List Nat → List Nat → Bool) (flash : Nat → Nat)
    (pk : List Nat) (hdr : FirmwareHeader) :
    ((SECBOOT_BootManager_VerifyAppSignature sha ec flash pk hdr).status
      = if hdr.magicNumber = FW_MAGIC_NUMBER ∧ (hdr.entryPoint = 0 ∨ hdr.imageSize = 0)
        then BMStatus.error
        else spec_verifyStatus sha ec flash pk hdr) ∧
    ((SECBOOT_BootManager_VerifyAppSignature sha ec flash pk hdr).hashCalls
      = if hdr.magicNumber = FW_MAGIC_NUMBER then 1 else 0) ∧
    ((SECBOOT_BootManager_VerifyAppSignature sha ec flash pk hdr).sigCalls
      = if hdr.magicNumber = FW_MAGIC_NUMBER ∧ ¬(hdr.entryPoint = 0 ∨ hdr.imageSize = 0) ∧
          sha (readBytes flash hdr.entryPoint hdr.imageSize) = hdr.firmwareHash
        then 1 else 0) := by
  by_cases h1 : hdr.magicNumber = FW_MAGIC_NUMBER <;>
    by_cases h4 : hdr.entryPoint = 0 ∨ hdr.imageSize = 0 <;>
      by_cases h2 : sha (readBytes flash hdr.entryPoint hdr.imageSize) = hdr.firmwareHash <;>
        by_cases h3 : ec hdr.firmwareHash hdr.signature pk = true <;>
          simp [SECBOOT_BootManager_VerifyAppSignature, spec_verifyStatus, h1, h4, h2, h3]

/-- C7: `SECBOOT_BootManager_CheckRollbackProtection` (modelled from the
spec, its implementation being absent from `src/`) returns
`VERSION_ROLLBACK` exactly when the candidate version is lexicographically
less than or equal to the current version, and `OK` otherwise — the
function returns only those two statuses — and on the claim's three
concrete pairs it rejects `[1,0,0,0]` against `[1,0,0,0]`, accepts
`[1,0,0,1]` against `[1,0,0,0]`, and rejects `[1,1,9,9]` against
`[1,2,0,0]`. -/
theorem C7_rollback_is_lexicographic (cur cand : Nat × Nat × Nat × Nat) :
    (SECBOOT_BootManager_CheckRollbackProtection cur cand = BMStatus.versionRollback
      ↔ versionLE cand cur) ∧
    (SECBOOT_BootManager_CheckRollbackProtection cur cand = BMStatus.versionRollback
      ∨ SECBOOT_BootManager_CheckRollbackProtection cur cand = BMStatus.ok) ∧
    SECBOOT_BootManager_CheckRollbackProtection (1, 0, 0, 0) (1, 0, 0, 0)
      = BMStatus.versionRollback ∧
    SECBOOT_BootManager_CheckRollbackProtection (1, 0, 0, 0) (1, 0, 0, 1)
      = BMStatus.ok ∧
    SECBOOT_BootManager_CheckRollbackProtection (1, 2, 0, 0) (1, 1, 9, 9)
      = BMStatus.versionRollback := by
  refine ⟨?_, ?_, by decide, by decide, by decide⟩
  · unfold SECBOOT_BootManager_CheckRollbackProtection versionLE
    split_ifs <;> simp_all <;> omega
  · unfold SECBOOT_BootManager_CheckRollbackProtection
    split_ifs <;> simp_all

/-- C8: on every return of `get_AES_key` — any hardware identity, any stored
IV, any contents of the stack words adjacent to `Aes_key`, whether
`SECBOOT_AES_Init` succeeds, whether the unwrap decryption succeeds and
whatever plaintext it yields, whether `SECBOOT_AES_DeInit` succeeds, so on
success and on every error path alike — every word of the ephemeral
device-derived key buffer `temp_key`, every word of the temporary IV buffer
`temp_iv`, and every byte of the intermediate decrypted-key plaintext
buffer `decrypted_key` reads zero. -/
theorem C8_key_unwrap_scrubs_on_every_return (uid0 uid1 uid2 : Nat)
    (ivFlash : List Nat) (initOK : Bool) (decryptOut : Option (List Nat))
    (deinitOK : Bool) (adjStack : List Nat) :
    (get_AES_key uid0 uid1 uid2 ivFlash initOK decryptOut deinitOK adjStack).temp_key
      = List.replicate 4 0 ∧
    (get_AES_key uid0 uid1 uid2 ivFlash initOK decryptOut deinitOK adjStack).temp_iv
      = List.replicate 4 0 ∧
    (get_AES_key uid0 uid1 uid2 ivFlash initOK decryptOut deinitOK adjStack).decrypted_key
      = List.replicate 32 0 := by
  have h32 : ∀ bs : List Nat,
      ((bs.take 32 ++ List.replicate (32 - (bs.take 32).length) 0).map
        fun _ => 0) = List.replicate 32 0 := by
    intro bs
    rw [map_const_zero_eq_replicate]
    congr 1
    have := List.length_take 32 bs
    simp only [List.length_append, List.length_replicate]
    omega
  cases initOK <;> rcases decryptOut with _ | bs <;>
    simp [get_AES_key, map_const_zero_eq_replicate, h32]

/-- C9 (code bug): the validation loop of `get_AES_key` iterates
`AES_KEY_SIZE/sizeof(uint32_t) = 8` words over the 4-word `Aes_key` array
(`secboot_bootmanager.c:73` vs line 34), reading past the array, so its
accept/reject decision depends on adjacent stack memory and the routine
does not guarantee rejecting a degenerate decrypted key.  Evaluated at a
concrete unwrap whose decrypted master key is 16 zero bytes (an all-zero
key filling the whole `Aes_key` array): with a neighbouring stack word
equal to 9 — neither `0x00000000` nor `0xFFFFFFFF`, as for instance the
`Aes_iv` words copied from flash — the call returns `SECBOOT_AES_OK`
carrying the all-zero key, while the identical call with all-zero adjacent
words returns `SECBOOT_AES_ERROR`: acceptance of the all-zero key is
decided by out-of-bounds memory, not by the key. -/
theorem C9_oob_validation_accepts_all_zero_key :
    (get_AES_key 1 2 3 [5, 6, 7, 8] true (some (List.replicate 16 0)) true
        [9, 0, 0, 0]).status = AesStatus.ok ∧
    (get_AES_key 1 2 3 [5, 6, 7, 8] true (some (List.replicate 16 0)) true
        [9, 0, 0, 0]).secret.AES_key = List.replicate 4 0 ∧
    (get_AES_key 1 2 3 [5, 6, 7, 8] true (some (List.replicate 16 0)) true
        [0, 0, 0, 0]).status = AesStatus.error := by decide

/-- C10: for every byte sequence, `PKCS7_Unpad` applied to the buffer
produced by `PKCS7_Pad` succeeds with `PKCS7_UNPAD_OK` and returns exactly
the original bytes with the original length: the pad value `16 - len % 16`
is between 1 and 16, the padded buffer is block-aligned and non-empty, its
last `pad` bytes all equal `pad`, and stripping them recovers the input. -/
theorem C10_pkcs7_pad_then_unpad_roundtrip (input : List Nat) :
    PKCS7_Unpad (PKCS7_Pad input).2.1 = (.unpad_ok, input, input.length) := by
  have h16 : input.length % 16 < 16 := Nat.mod_lt _ (by norm_num)
  set p := 16 - input.length % 16 with hp
  have hpadded : (PKCS7_Pad input).2.1 = input ++ List.replicate p p := rfl
  have hlen : (input ++ List.replicate p p).length = input.length + p := by simp
  have hget : ∀ i, i < p →
      (input ++ List.replicate p p).getD (input.length + p - 1 - i) 0 = p := by
    intro i hi
    have h1 : input.length + p - 1 - i = input.length + (p - 1 - i) := by omega
    rw [h1, getD_append_add, getD_replicate_of_lt _ _ _ _ (by omega)]
  have hlast : (input ++ List.replicate p p).getD (input.length + p - 1) 0 = p := by
    have := hget 0 (by omega)
    simpa using this
  have hany : ((List.range p).any fun i =>
      (input ++ List.replicate p p).getD (input.length + p - 1 - i) 0 != p) = false := by
    rw [List.any_eq_false]
    intro i hi
    rw [List.mem_range] at hi
    rw [hget i hi]
    simp
  rw [hpadded]
  simp only [PKCS7_Unpad, AES_BLOCK_SIZE, hlen, hlast]
  rw [if_neg (by omega), if_neg (by omega),
    if_neg (show ¬ (((List.range p).any fun i =>
      (input ++ List.replicate p p).getD (input.length + p - 1 - i) 0 != p) = true) by
        rw [hany]; simp)]
  have hsub : input.length + p - p = input.length := by omega
  rw [hsub, List.take_left]

end SecBoot
